import Mathlib

/-!
Handle lifecycle and connection establishment of the odbc driver.

A shallow embedding of `driver.go` (package `odbc`): the package-level driver
value `drv`, its one-time initialisation `initDriver`/`init`, the teardown
`Driver.Close` and the connection opener `Driver.open`/`Driver.Open`.

The Go code is stateful and calls into the native ODBC library.  Here

* the mutable package state is an explicit `World` value (the driver `drv`
  and a ghost trace of the calls issued so far) passed through every function;
* the result of every native call is an input of the function that issues it
  (`InitNative`, `OpenNative`, and the `free` argument of `releaseHandle`), so
  a theorem quantified over these inputs speaks about every behaviour of the
  native library;
* the `atomic.Int32` counters are integers updated modulo `2^32`
  (`wrap32`);
* a Go string is the list of its runes (`List Char`); strings that are not
  valid UTF-8 are outside the model.
-/

namespace odbc

/-! ## Vocabulary of the native API (package `api`) -/

/-- The raw handle `api.SQLHANDLE`, a machine word. -/
abbrev SQLHANDLE := Nat

/-- The return code `api.SQLRETURN` of a native call. -/
abbrev SQLRETURN := Int

/-- The constant `api.SQL_NULL_HANDLE`: the zero word, which is also the Go zero
value of a handle field. -/
def SQL_NULL_HANDLE : SQLHANDLE := 0

/-- The constant `api.SQL_NULL_HENV`. -/
def SQL_NULL_HENV : SQLHANDLE := 0

/-- Handle kinds understood by `SQLAllocHandle`. -/
inductive HandleType where
  | SQL_HANDLE_ENV
  | SQL_HANDLE_DBC
  | SQL_HANDLE_STMT
  deriving DecidableEq, Repr

/-- Environment attributes set by `initDriver`. -/
inductive EnvAttr where
  | SQL_ATTR_ODBC_VERSION
  | SQL_ATTR_CONNECTION_POOLING
  | SQL_ATTR_CP_MATCH
  deriving DecidableEq, Repr

/-- Attribute values passed by `initDriver`. -/
inductive AttrValue where
  | SQL_OV_ODBC3
  | SQL_CP_ONE_PER_HENV
  | SQL_CP_RELAXED_MATCH
  deriving DecidableEq, Repr

/-- The last argument of `SQLSetEnvUIntPtrAttr`: the literal `0` or
`api.SQL_IS_UINTEGER`. -/
inductive AttrLength where
  | zero
  | SQL_IS_UINTEGER
  deriving DecidableEq, Repr

/-- Completion modes of `SQLDriverConnect`. -/
inductive DriverCompletion where
  | SQL_DRIVER_NOPROMPT
  | SQL_DRIVER_COMPLETE
  | SQL_DRIVER_PROMPT
  | SQL_DRIVER_COMPLETE_REQUIRED
  deriving DecidableEq, Repr

/-- A typed handle as passed in an `interface{}` argument (`api.SQLHENV`,
`api.SQLHDBC` or `api.SQLHSTMT`). -/
inductive AnyHandle where
  | SQLHENV (h : SQLHANDLE)
  | SQLHDBC (h : SQLHANDLE)
  | SQLHSTMT (h : SQLHANDLE)
  deriving DecidableEq, Repr

/-- The raw word of a typed handle. -/
def AnyHandle.raw : AnyHandle → SQLHANDLE
  | .SQLHENV h => h
  | .SQLHDBC h => h
  | .SQLHSTMT h => h

/-- The handle kind of a typed handle. -/
def AnyHandle.handleType : AnyHandle → HandleType
  | .SQLHENV _ => .SQL_HANDLE_ENV
  | .SQLHDBC _ => .SQL_HANDLE_DBC
  | .SQLHSTMT _ => .SQL_HANDLE_STMT

/-- What `driver.go` takes from outside the file and whose body is not part of
the sources: the success test `IsError` on return codes, and the upper-case
table `unicode.ToUpper` of the Go library for runes outside ASCII.  The
theorems hold for every value of this record. -/
structure Lib where
  /-- `IsError(ret)`: whether a native return code signals failure. -/
  IsError : SQLRETURN → Bool
  /-- `unicode.ToUpper` on the runes `≥ 0x80`. -/
  unicodeToUpper : Char → Char

/-- The usual ODBC convention, used for concrete runs: `SQL_SUCCESS` (0) and
`SQL_SUCCESS_WITH_INFO` (1) are the two codes that are not errors.  The
concrete runs use ASCII connection strings only, on which the table for the
other runes is never consulted; it is the identity here. -/
def Lib.odbc : Lib where
  IsError := fun ret => !(ret == 0 || ret == 1)
  unicodeToUpper := fun c => c

/-! ## Data model -/

/-- Modelled from the spec: the error value built by `NewError` (error.go is not
part of the sources).  The spec's diagnostic record is "composed of the failing
operation's name and the handle it failed against". -/
structure Error where
  APIName : String
  handle : AnyHandle
  deriving DecidableEq, Repr

/-- The 32-bit two's-complement value of an integer: the arithmetic of
`atomic.Int32`. -/
def wrap32 (x : Int) : Int := (x + 2147483648) % 4294967296 - 2147483648

/-- The allocation counters `Stats` (the three `*atomic.Int32` fields, by
value). -/
structure Stats where
  EnvCount : Int
  ConnCount : Int
  StmtCount : Int
  deriving DecidableEq, Repr

/-- The type `Driver`: the embedded `Stats`, the environment handle `h` and the
remembered initialisation error `initErr` (`none` is Go's `nil`). -/
structure Driver extends Stats where
  h : SQLHANDLE
  initErr : Option Error
  deriving DecidableEq, Repr

/-- The fields of `Conn` that `Driver.open` fills in. -/
structure Conn where
  h : SQLHANDLE
  isMSAccessDriver : Bool
  bad : Bool
  closingInBG : Bool
  deriving DecidableEq, Repr

/-- The `context.Context` argument of `open`, reduced to its optional
deadline. -/
structure Context where
  deadline : Option Nat
  deriving DecidableEq, Repr

/-- The value `context.Background()`. -/
def Context.Background : Context := ⟨none⟩

/-- One entry of the ghost trace: a call that was issued, with its
arguments. -/
inductive Event where
  | SQLAllocHandle (handleType : HandleType) (input : SQLHANDLE)
  | SQLSetEnvUIntPtrAttr (h : SQLHANDLE) (attr : EnvAttr) (value : AttrValue)
      (len : AttrLength)
  | SQLDriverConnect (h : SQLHANDLE) (connStr : List Char)
      (completion : DriverCompletion)
  | NewError (apiName : String) (handle : AnyHandle)
  | releaseHandle (handle : AnyHandle)
  | Register (name : String)
  deriving DecidableEq, Repr

/-- Whether the entry is one of the native calls `SQLAllocHandle`,
`SQLSetEnvUIntPtrAttr`, `SQLDriverConnect`. -/
def Event.isNative : Event → Bool
  | .SQLAllocHandle _ _ => true
  | .SQLSetEnvUIntPtrAttr _ _ _ _ => true
  | .SQLDriverConnect _ _ _ => true
  | _ => false

/-- The package state: the variable `drv` and the trace of calls issued so far
(oldest first). -/
structure World where
  drv : Driver
  trace : List Event
  deriving DecidableEq, Repr

/-- The state before `init` has run: `drv` is the zero value. -/
def World.initial : World :=
  { drv := { EnvCount := 0, ConnCount := 0, StmtCount := 0, h := 0, initErr := none }
    trace := [] }

/-- Append an entry to the trace. -/
def World.log (w : World) (e : Event) : World :=
  { w with trace := w.trace ++ [e] }

/-- The statement `drv.h = h`. -/
def World.setH (w : World) (h : SQLHANDLE) : World :=
  { w with drv := { w.drv with h := h } }

/-- Add `change` to the counter of `drv.Stats` that belongs to the handle
kind, in 32-bit arithmetic (`Inc` is `+1`, `Dec` is `-1`). -/
def World.updateHandleCount (w : World) (ht : HandleType) (change : Int) : World :=
  match ht with
  | .SQL_HANDLE_ENV =>
    { w with drv := { w.drv with EnvCount := wrap32 (w.drv.EnvCount + change) } }
  | .SQL_HANDLE_DBC =>
    { w with drv := { w.drv with ConnCount := wrap32 (w.drv.ConnCount + change) } }
  | .SQL_HANDLE_STMT =>
    { w with drv := { w.drv with StmtCount := wrap32 (w.drv.StmtCount + change) } }

/-! ## Collaborators that are not in `driver.go` -/

/-- Modelled from the spec: `NewError` (error.go is not part of the sources),
the spec's diagnostic translator: "produces a single structured error carrying
the operation name", built from "the handle on which a native call just
failed".  The call itself is recorded in the trace. -/
def NewError (apiName : String) (handle : AnyHandle) (w : World) : Error × World :=
  (⟨apiName, handle⟩, w.log (.NewError apiName handle))

/-- Modelled from the spec: `releaseHandle` (handle.go is not part of the
sources).  In the spec's words: "releasing a null handle is a no-op success";
a release yields a result that may be an error; the counters track live
handles, "incremented on allocation, decremented on release".  For an
environment handle the release is what keeps a failed initialisation from being
counted ("the environment counter is not incremented for that failed attempt"),
so a successful release decrements `EnvCount`.  For the connection handle that
`open` releases after a failed connect the spec says that "the connection
counter is intentionally left incremented" and "not rolled back", and it gives
the decrement of the connection counter and the statement counter to the
out-of-scope component that uses the connection; so the release of a connection
or statement handle leaves the counters alone.  A release that fails returns
the translated error and changes no counter.  Every invocation is recorded in
the trace. -/
def releaseHandle (lib : Lib) (handle : AnyHandle) (free : SQLRETURN) (w : World) :
    Option Error × World :=
  let w1 := w.log (.releaseHandle handle)
  if handle.raw = SQL_NULL_HANDLE then (none, w1)
  else if lib.IsError free then
    let r := NewError "SQLFreeHandle" handle w1
    (some r.1, r.2)
  else
    match handle with
    | .SQLHENV _ => (none, w1.updateHandleCount .SQL_HANDLE_ENV (-1))
    | .SQLHDBC _ => (none, w1)
    | .SQLHSTMT _ => (none, w1)

/-! ## `strings` functions used by the dialect test -/

/-- `strings.Replace(s, old, new, n)` for a one-rune `old`: the first `n`
occurrences of `old` are replaced by `new`, all of them when `n < 0`. -/
def Replace : List Char → Char → List Char → Int → List Char
  | [], _, _, _ => []
  | c :: s, old, new, n =>
    if c = old ∧ n ≠ 0 then new ++ Replace s old new (n - 1)
    else c :: Replace s old new n

/-- The rune map of `strings.ToUpper`: on ASCII the letters `a`–`z` go to
`A`–`Z` and everything else stays; outside ASCII it is `unicode.ToUpper`. -/
def upperRune (lib : Lib) (c : Char) : Char :=
  if c.val < 128 then c.toUpper else lib.unicodeToUpper c

/-- `strings.ToUpper`: every rune is mapped to its upper case. -/
def ToUpper (lib : Lib) (s : List Char) : List Char := s.map (upperRune lib)

/-- `strings.Contains(s, substr)`: `substr` occurs in `s` as a contiguous
block. -/
def Contains : List Char → List Char → Bool
  | [], substr => substr.isEmpty
  | c :: s, substr => substr.isPrefixOf (c :: s) || Contains s substr

/-- Modelled from the spec: the package constant `accessDriverSubstr`, which is
declared outside driver.go: the "known legacy-desktop-dialect marker
substring", the upper-cased, space-free form of the text `DRIVER=` + opening
brace + `Microsoft Access Driver`. -/
def accessDriverSubstr : List Char :=
  ("DRIVER=\x7bMicrosoft Access Driver".toList.filter (fun c => c != ' ')).map Char.toUpper

/-! ## `driver.go` -/

/-- Outcome of a native `SQLAllocHandle`: the return code and the word written
to the output argument. -/
structure AllocOutcome where
  ret : SQLRETURN
  out : SQLHANDLE
  deriving DecidableEq, Repr

/-- Outcomes of the native calls that one run of `initDriver` can issue, in
program order; `free` is the outcome of the release on a failure path. -/
structure InitNative where
  alloc : AllocOutcome
  setVersion : SQLRETURN
  setPooling : SQLRETURN
  setMatch : SQLRETURN
  free : SQLRETURN
  deriving DecidableEq, Repr

/-- Outcomes of the native calls that one run of `open` can issue, in program
order; `free` is the outcome of the release on the connect-failure path. -/
structure OpenNative where
  alloc : AllocOutcome
  connect : SQLRETURN
  free : SQLRETURN
  deriving DecidableEq, Repr

/-- The shared shape of the three failure branches of `initDriver`:
`defer releaseHandle(drv.h); return NewError("SQLSetEnvUIntPtrAttr", drv.h)`.
The returned error is built first, the deferred release runs after it and its
result is dropped. -/
def initDriverFail (lib : Lib) (free : SQLRETURN) (w : World) : Option Error × World :=
  let h := w.drv.h
  let r := NewError "SQLSetEnvUIntPtrAttr" (.SQLHENV w.drv.h) w
  (some r.1, (releaseHandle lib (.SQLHENV h) free r.2).2)

/-- The function `initDriver`. -/
def initDriver (lib : Lib) (nat : InitNative) (w : World) : Option Error × World :=
  -- initialize allocation counters
  let w0 : World :=
    { w with drv := { w.drv with EnvCount := 0, ConnCount := 0, StmtCount := 0 } }
  -- Allocate environment handle
  let w1 := w0.log (.SQLAllocHandle .SQL_HANDLE_ENV SQL_NULL_HANDLE)
  if lib.IsError nat.alloc.ret then
    let r := NewError "SQLAllocHandle" (.SQLHENV SQL_NULL_HANDLE) w1
    (some r.1, r.2)
  else
    let w2 := (w1.setH nat.alloc.out).updateHandleCount .SQL_HANDLE_ENV 1
    -- will use ODBC v3
    let w3 := w2.log
      (.SQLSetEnvUIntPtrAttr w2.drv.h .SQL_ATTR_ODBC_VERSION .SQL_OV_ODBC3 .zero)
    if lib.IsError nat.setVersion then initDriverFail lib nat.free w3
    else
      -- Enable connection pooling
      let w4 := w3.log
        (.SQLSetEnvUIntPtrAttr w3.drv.h .SQL_ATTR_CONNECTION_POOLING .SQL_CP_ONE_PER_HENV
          .SQL_IS_UINTEGER)
      if lib.IsError nat.setPooling then initDriverFail lib nat.free w4
      else
        -- Set relaxed connection pool matching
        let w5 := w4.log
          (.SQLSetEnvUIntPtrAttr w4.drv.h .SQL_ATTR_CP_MATCH .SQL_CP_RELAXED_MATCH
            .SQL_IS_UINTEGER)
        if lib.IsError nat.setMatch then initDriverFail lib nat.free w5
        else (none, w5)

/-- The method `(*Driver).Close` on the package driver `drv`; `free` is the
outcome of the native free that `releaseHandle` may issue. -/
def Driver.Close (lib : Lib) (free : SQLRETURN) (w : World) : Option Error × World :=
  let h := w.drv.h
  let w1 := w.setH SQL_NULL_HENV
  releaseHandle lib (.SQLHENV h) free w1

/-- The package function `init`. -/
def init (lib : Lib) (nat : InitNative) (w : World) : World :=
  let r := initDriver lib nat w
  let w1 : World :=
    match r.1 with
    | some err => { r.2 with drv := { r.2.drv with initErr := some err } }
    | none => r.2
  w1.log (.Register "odbc")

/-- The method `(*Driver).open`.  The receiver `d` is only read (`d.initErr`,
`d.h`); the counter that is incremented is the one of the package variable
`drv`, as in the source. -/
def Driver.open (lib : Lib) (d : Driver) (name : List Char) (dialContext : Context)
    (nat : OpenNative) (w : World) : (Option Conn × Option Error) × World :=
  let _ := dialContext
  match d.initErr with
  | some e => ((none, some e), w)
  | none =>
    let w1 := w.log (.SQLAllocHandle .SQL_HANDLE_DBC d.h)
    if lib.IsError nat.alloc.ret then
      let r := NewError "SQLAllocHandle" (.SQLHENV d.h) w1
      ((none, some r.1), r.2)
    else
      let h := nat.alloc.out
      let w2 := w1.updateHandleCount .SQL_HANDLE_DBC 1
      let w3 := w2.log (.SQLDriverConnect h name .SQL_DRIVER_NOPROMPT)
      if lib.IsError nat.connect then
        let r := NewError "SQLDriverConnect" (.SQLHDBC h) w3
        ((none, some r.1), (releaseHandle lib (.SQLHDBC h) nat.free r.2).2)
      else
        let isAccess := Contains (ToUpper lib (Replace name ' ' [] (-1))) accessDriverSubstr
        ((some { h := h, isMSAccessDriver := isAccess, bad := false, closingInBG := false },
          none), w3)

/-- The method `(*Driver).Open`. -/
def Driver.Open (lib : Lib) (d : Driver) (name : List Char) (nat : OpenNative) (w : World) :
    (Option Conn × Option Error) × World :=
  Driver.open lib d name Context.Background nat w

/-! ## Vocabulary of the statements -/

/-- The values an `atomic.Int32` can hold. -/
def InRange32 (x : Int) : Prop := -2147483648 ≤ x ∧ x < 2147483648

instance (x : Int) : Decidable (InRange32 x) := by
  unfold InRange32; infer_instance

/-- The entries that a run added to the trace: what `after` holds beyond
`before`. -/
def newEvents (before after : World) : List Event :=
  after.trace.drop before.trace.length

/-- The four native steps of the initialisation sequence as the specification
lists them, for the environment handle `h`. -/
def specInitSteps (h : SQLHANDLE) : List Event :=
  [ .SQLAllocHandle .SQL_HANDLE_ENV SQL_NULL_HANDLE,
    .SQLSetEnvUIntPtrAttr h .SQL_ATTR_ODBC_VERSION .SQL_OV_ODBC3 .zero,
    .SQLSetEnvUIntPtrAttr h .SQL_ATTR_CONNECTION_POOLING .SQL_CP_ONE_PER_HENV .SQL_IS_UINTEGER,
    .SQLSetEnvUIntPtrAttr h .SQL_ATTR_CP_MATCH .SQL_CP_RELAXED_MATCH .SQL_IS_UINTEGER ]

/-- Which of the four steps report an error, in step order. -/
def initStepErrors (lib : Lib) (nat : InitNative) : List Bool :=
  [lib.IsError nat.alloc.ret, lib.IsError nat.setVersion, lib.IsError nat.setPooling,
    lib.IsError nat.setMatch]

/-- Index (from 0) of the first step that reports an error; 4 when none
does. -/
def firstInitError (lib : Lib) (nat : InitNative) : Nat :=
  (initStepErrors lib nat).indexOf true

/-- The operation name of step `k` (from 0) and the handle its error is built
on. -/
def specInitError (nat : InitNative) (k : Nat) : Error :=
  if k = 0 then ⟨"SQLAllocHandle", .SQLHENV SQL_NULL_HANDLE⟩
  else ⟨"SQLSetEnvUIntPtrAttr", .SQLHENV nat.alloc.out⟩

/-- One call of `open` in a sequence: its receiver, its arguments and the
outcomes of the native calls it may issue. -/
structure OpenCall where
  d : Driver
  name : List Char
  ctx : Context
  nat : OpenNative

/-- A finite sequence of `open` calls run one after the other on the package
state; the returned values are dropped. -/
def openSeq (lib : Lib) : List OpenCall → World → World
  | [], w => w
  | c :: cs, w => openSeq lib cs (Driver.open lib c.d c.name c.ctx c.nat w).2

/-- The call reaches `SQLAllocHandle` and the allocation succeeds. -/
def OpenCall.allocated (lib : Lib) (c : OpenCall) : Bool :=
  c.d.initErr.isNone && !lib.IsError c.nat.alloc.ret

/-- A call on a driver without init error whose allocation yields handle 2 and
whose connect succeeds. -/
def okCall : OpenCall :=
  ⟨World.initial.drv, "DSN=test".toList, Context.Background, ⟨⟨0, 2⟩, 0, 0⟩⟩

/-- The text `m` is the text `t` written in some letter casing and with spaces
embedded: `m` is obtained from `t` by replacing each rune by a rune with that
upper case and by inserting spaces anywhere. -/
inductive Writes (lib : Lib) : List Char → List Char → Prop where
  | nil : Writes lib [] []
  | space (m t : List Char) : Writes lib m t → Writes lib (' ' :: m) t
  | rune (c b : Char) (m t : List Char) :
      c ≠ ' ' → upperRune lib c = b → Writes lib m t → Writes lib (c :: m) (b :: t)

/-- The connection string contains the dialect marker written in some letter
casing and with spaces embedded in it. -/
def HasMarker (lib : Lib) (name : List Char) : Prop :=
  ∃ pre m post, name = pre ++ m ++ post ∧ Writes lib m accessDriverSubstr

/-- The whitespace characters of the specification's normal form: space, tab,
newline, carriage return. -/
def isSpecWhitespace (c : Char) : Bool :=
  c == ' ' || c == Char.ofNat 9 || c == Char.ofNat 10 || c == Char.ofNat 13

/-- The normal form in the specification's words: all whitespace stripped,
letter case folded (to upper case). -/
def specNormalize (lib : Lib) (s : List Char) : List Char :=
  (s.filter (fun c => !isSpecWhitespace c)).map (upperRune lib)

/-- The normal form with only the space character stripped, letters in upper
case. -/
def stripSpacesUpper (lib : Lib) (s : List Char) : List Char :=
  (s.filter (fun c => c != ' ')).map (upperRune lib)

/-- The first connection string of the specification's scenario. -/
def accessExample : List Char :=
  "DRIVER=\x7bMicrosoft Access Driver (*.mdb)\x7d;DBQ=test.mdb".toList

/-- The second connection string of the specification's scenario. -/
def postgresExample : List Char :=
  "DRIVER=\x7bPostgreSQL\x7d;SERVER=localhost".toList

/-- A connection string with a tab inside the marker. -/
def tabExample : List Char :=
  "DRIVER=\x7bMicrosoft\tAccess Driver".toList

/-- The marker in lower case with doubled spaces. -/
def lowerExample : List Char :=
  "driver = \x7bmicrosoft  access  driver".toList

/-- The same connection string with a space in place of the tab. -/
def spaceExample : List Char :=
  "DRIVER=\x7bMicrosoft Access Driver".toList

/-! ## Basic facts -/

theorem wrap32_of_inRange {x : Int} (h : InRange32 x) : wrap32 x = x := by
  unfold InRange32 at h
  unfold wrap32
  omega

theorem inRange32_wrap32 (x : Int) : InRange32 (wrap32 x) := by
  unfold InRange32 wrap32
  omega

theorem wrap32_wrap32_add (a b : Int) : wrap32 (wrap32 a + b) = wrap32 (a + b) := by
  unfold wrap32
  omega

/-! ## The fail-fast path of `open` -/

/-- C1: when the driver remembers an initialisation error, `open` (and hence
`Open`) returns no connection together with exactly that error, and the package
state is untouched: nothing is added to the trace (no `SQLAllocHandle`, no
`SQLDriverConnect`, no `releaseHandle`) and the three counters keep their
values. -/
theorem open_initErr_fails_fast (lib : Lib) (d : Driver) (e : Error) (name : List Char)
    (ctx : Context) (nat : OpenNative) (w : World) (hinit : d.initErr = some e) :
    Driver.open lib d name ctx nat w = ((none, some e), w) ∧
    Driver.Open lib d name nat w = ((none, some e), w) ∧
    newEvents w (Driver.open lib d name ctx nat w).2 = [] ∧
    (Driver.open lib d name ctx nat w).2.drv.toStats = w.drv.toStats := by
  have h1 : Driver.open lib d name ctx nat w = ((none, some e), w) := by
    simp [Driver.open, hinit]
  have h2 : Driver.Open lib d name nat w = ((none, some e), w) := by
    simp [Driver.Open, Driver.open, hinit]
  refine ⟨h1, h2, ?_, ?_⟩
  · rw [h1]; simp [newEvents]
  · rw [h1]

theorem open_initErr_fails_fast_witness :
    (({ World.initial.drv with
          initErr := some ⟨"SQLAllocHandle", .SQLHENV SQL_NULL_HANDLE⟩ } : Driver).initErr
        = some ⟨"SQLAllocHandle", .SQLHENV SQL_NULL_HANDLE⟩) ∧
    Driver.open Lib.odbc
        { World.initial.drv with initErr := some ⟨"SQLAllocHandle", .SQLHENV SQL_NULL_HANDLE⟩ }
        "DSN=test".toList Context.Background ⟨⟨0, 7⟩, 0, 0⟩ World.initial
      = ((none, some ⟨"SQLAllocHandle", .SQLHENV SQL_NULL_HANDLE⟩), World.initial) :=
  ⟨rfl, (open_initErr_fails_fast Lib.odbc
      { World.initial.drv with initErr := some ⟨"SQLAllocHandle", .SQLHENV SQL_NULL_HANDLE⟩ }
      ⟨"SQLAllocHandle", .SQLHENV SQL_NULL_HANDLE⟩ "DSN=test".toList Context.Background
      ⟨⟨0, 7⟩, 0, 0⟩ World.initial rfl).1⟩

/-! ## The connect-failure path of `open` -/

/-- C2: when `initErr` is nil, the allocation succeeds and the connect reports
an error, `open` returns no connection and the non-nil error
`NewError("SQLDriverConnect", h)` built on the handle `h` just allocated.  Its
first four calls are, in this order, the allocation, the connect in no-prompt
mode, `NewError`, and `releaseHandle` on `h`; the native calls it issues are
that one allocation and that one connect, and `releaseHandle` is called on `h`
exactly once.  When `open` returns, `ConnCount` is at its post-allocation value,
the value before the call incremented once as an `atomic.Int32` (the value
before the call plus one whenever that fits in 32 bits): the counter is not
rolled back, whatever the release answers. -/
theorem open_connect_failure (lib : Lib) (d : Driver) (name : List Char) (ctx : Context)
    (nat : OpenNative) (w : World) (hinit : d.initErr = none)
    (halloc : lib.IsError nat.alloc.ret = false) (hconn : lib.IsError nat.connect = true) :
    (Driver.open lib d name ctx nat w).1
      = (none, some ⟨"SQLDriverConnect", .SQLHDBC nat.alloc.out⟩) ∧
    (newEvents w (Driver.open lib d name ctx nat w).2).take 4
      = [.SQLAllocHandle .SQL_HANDLE_DBC d.h,
         .SQLDriverConnect nat.alloc.out name .SQL_DRIVER_NOPROMPT,
         .NewError "SQLDriverConnect" (.SQLHDBC nat.alloc.out),
         .releaseHandle (.SQLHDBC nat.alloc.out)] ∧
    (newEvents w (Driver.open lib d name ctx nat w).2).filter Event.isNative
      = [.SQLAllocHandle .SQL_HANDLE_DBC d.h,
         .SQLDriverConnect nat.alloc.out name .SQL_DRIVER_NOPROMPT] ∧
    ((Driver.open lib d name ctx nat w).2.trace.count (.releaseHandle (.SQLHDBC nat.alloc.out))
      = w.trace.count (.releaseHandle (.SQLHDBC nat.alloc.out)) + 1) ∧
    (Driver.open lib d name ctx nat w).2.drv.ConnCount = wrap32 (w.drv.ConnCount + 1) ∧
    (InRange32 (w.drv.ConnCount + 1) →
      (Driver.open lib d name ctx nat w).2.drv.ConnCount = w.drv.ConnCount + 1) := by
  have hcount : (Driver.open lib d name ctx nat w).2.drv.ConnCount
      = wrap32 (w.drv.ConnCount + 1) := by
    by_cases hnull : nat.alloc.out = SQL_NULL_HANDLE <;> cases hfree : lib.IsError nat.free <;>
      simp [Driver.open, hinit, halloc, hconn, releaseHandle, NewError, World.log,
        World.updateHandleCount, AnyHandle.raw, hnull, hfree]
  refine ⟨?_, ?_, ?_, ?_, hcount, ?_⟩
  · simp [Driver.open, hinit, halloc, hconn, NewError]
  · by_cases hnull : nat.alloc.out = SQL_NULL_HANDLE <;> cases hfree : lib.IsError nat.free <;>
      simp [Driver.open, hinit, halloc, hconn, releaseHandle, NewError, World.log,
        World.updateHandleCount, AnyHandle.raw, newEvents, hnull, hfree]
  · by_cases hnull : nat.alloc.out = SQL_NULL_HANDLE <;> cases hfree : lib.IsError nat.free <;>
      simp [Driver.open, hinit, halloc, hconn, releaseHandle, NewError, World.log,
        World.updateHandleCount, AnyHandle.raw, newEvents, hnull, hfree, Event.isNative]
  · by_cases hnull : nat.alloc.out = SQL_NULL_HANDLE <;> cases hfree : lib.IsError nat.free <;>
      simp [Driver.open, hinit, halloc, hconn, releaseHandle, NewError, World.log,
        World.updateHandleCount, AnyHandle.raw, newEvents, hnull, hfree]
  · intro hr
    rw [hcount, wrap32_of_inRange hr]

theorem open_connect_failure_witness :
    World.initial.drv.initErr = none ∧
    Lib.odbc.IsError (0 : Int) = false ∧ Lib.odbc.IsError (-1 : Int) = true ∧
    (Driver.open Lib.odbc World.initial.drv "DSN=test".toList Context.Background
        ⟨⟨0, 2⟩, -1, 0⟩ World.initial).1
      = (none, some ⟨"SQLDriverConnect", .SQLHDBC 2⟩) ∧
    (Driver.open Lib.odbc World.initial.drv "DSN=test".toList Context.Background
        ⟨⟨0, 2⟩, -1, 0⟩ World.initial).2.drv.ConnCount = wrap32 (World.initial.drv.ConnCount + 1) :=
  ⟨by decide, by decide, by decide,
    (open_connect_failure Lib.odbc World.initial.drv "DSN=test".toList Context.Background
      ⟨⟨0, 2⟩, -1, 0⟩ World.initial (by decide) (by decide) (by decide)).1,
    (open_connect_failure Lib.odbc World.initial.drv "DSN=test".toList Context.Background
      ⟨⟨0, 2⟩, -1, 0⟩ World.initial (by decide) (by decide) (by decide)).2.2.2.2.1⟩

/-! ## The success path of `open` -/

/-- C10: when `initErr` is nil and both the allocation and the connect succeed,
`open` returns a nil error and a connection whose handle is the handle
allocated in this call and whose `bad` and `closingInBG` flags are false; the
calls it issued are exactly one `SQLAllocHandle` (for a connection handle under
`d.h`) followed by one `SQLDriverConnect` on the new handle with the given
connection string in `SQL_DRIVER_NOPROMPT` mode, and no `releaseHandle`. -/
theorem open_success (lib : Lib) (d : Driver) (name : List Char) (ctx : Context)
    (nat : OpenNative) (w : World) (hinit : d.initErr = none)
    (halloc : lib.IsError nat.alloc.ret = false) (hconn : lib.IsError nat.connect = false) :
    (∃ c : Conn, (Driver.open lib d name ctx nat w).1 = (some c, none) ∧
      c.h = nat.alloc.out ∧ c.bad = false ∧ c.closingInBG = false) ∧
    newEvents w (Driver.open lib d name ctx nat w).2
      = [.SQLAllocHandle .SQL_HANDLE_DBC d.h,
         .SQLDriverConnect nat.alloc.out name .SQL_DRIVER_NOPROMPT] ∧
    (∀ hd : AnyHandle,
      Event.releaseHandle hd ∉ newEvents w (Driver.open lib d name ctx nat w).2) := by
  have hev : newEvents w (Driver.open lib d name ctx nat w).2
      = [.SQLAllocHandle .SQL_HANDLE_DBC d.h,
         .SQLDriverConnect nat.alloc.out name .SQL_DRIVER_NOPROMPT] := by
    simp [Driver.open, hinit, halloc, hconn, World.log, World.updateHandleCount, newEvents]
  refine ⟨?_, hev, ?_⟩
  · simp [Driver.open, hinit, halloc, hconn]
  · intro hd
    rw [hev]
    simp

theorem open_success_witness :
    World.initial.drv.initErr = none ∧
    Lib.odbc.IsError (0 : Int) = false ∧ Lib.odbc.IsError (1 : Int) = false ∧
    newEvents World.initial
        (Driver.open Lib.odbc World.initial.drv "DSN=test".toList Context.Background
          ⟨⟨0, 2⟩, 1, 0⟩ World.initial).2
      = [.SQLAllocHandle .SQL_HANDLE_DBC 0,
         .SQLDriverConnect 2 "DSN=test".toList .SQL_DRIVER_NOPROMPT] :=
  ⟨by decide, by decide, by decide,
    (open_success Lib.odbc World.initial.drv "DSN=test".toList Context.Background
      ⟨⟨0, 2⟩, 1, 0⟩ World.initial (by decide) (by decide) (by decide)).2.1⟩

/-! ## `initDriver` -/

/-- C6, as stated, fails: when the allocation yields handle 1, the ODBC-version
step reports `SQL_ERROR` and the release of the handle reports `SQL_ERROR` too,
`EnvCount` is 1 when `initDriver` returns, not 0. -/
theorem initDriver_attr_failure_counterexample :
    Lib.odbc.IsError (0 : Int) = false ∧ Lib.odbc.IsError (-1 : Int) = true ∧
    (initDriver Lib.odbc ⟨⟨0, 1⟩, -1, 0, 0, -1⟩ World.initial).1
      = some ⟨"SQLSetEnvUIntPtrAttr", .SQLHENV 1⟩ ∧
    (initDriver Lib.odbc ⟨⟨0, 1⟩, -1, 0, 0, -1⟩ World.initial).2.drv.EnvCount = 1 ∧
    (initDriver Lib.odbc ⟨⟨0, 1⟩, -1, 0, 0, -1⟩ World.initial).2.drv.EnvCount ≠ 0 := by
  decide

/-- C6, amended: when the environment handle is allocated and one of the three
attribute steps reports an error, `initDriver` returns the error
`NewError("SQLSetEnvUIntPtrAttr", h)` on the allocated handle `h`, and before it
returns it calls `releaseHandle` on `h`, once, after the error was built.  The
environment counter was incremented right after the allocation; the release
decrements it again when it succeeds, so `EnvCount` is 0 at return when the
release succeeds, and 1 when the release does nothing (null handle) or
fails. -/
theorem initDriver_attr_failure (lib : Lib) (nat : InitNative) (w : World)
    (halloc : lib.IsError nat.alloc.ret = false)
    (hattr : lib.IsError nat.setVersion = true ∨ lib.IsError nat.setPooling = true ∨
      lib.IsError nat.setMatch = true) :
    (initDriver lib nat w).1 = some ⟨"SQLSetEnvUIntPtrAttr", .SQLHENV nat.alloc.out⟩ ∧
    (∃ steps : List Event, (∀ e ∈ steps, e.isNative = true) ∧
      newEvents w (initDriver lib nat w).2
        = steps ++
          (.NewError "SQLSetEnvUIntPtrAttr" (.SQLHENV nat.alloc.out) ::
           .releaseHandle (.SQLHENV nat.alloc.out) ::
           (if nat.alloc.out ≠ SQL_NULL_HANDLE ∧ lib.IsError nat.free = true
             then [.NewError "SQLFreeHandle" (.SQLHENV nat.alloc.out)] else []))) ∧
    ((newEvents w (initDriver lib nat w).2).count (.releaseHandle (.SQLHENV nat.alloc.out))
      = 1) ∧
    (initDriver lib nat w).2.drv.EnvCount
      = (if nat.alloc.out ≠ SQL_NULL_HANDLE ∧ lib.IsError nat.free = false then 0 else 1) := by
  have h1 : wrap32 1 = 1 := by decide
  have h0 : wrap32 0 = 0 := by decide
  by_cases hnull : nat.alloc.out = SQL_NULL_HANDLE <;>
  cases hfree : lib.IsError nat.free <;>
  cases hv : lib.IsError nat.setVersion <;>
  cases hp : lib.IsError nat.setPooling <;>
  cases hm : lib.IsError nat.setMatch <;>
  simp [hv, hp, hm] at hattr <;>
  refine ⟨?_, ⟨(specInitSteps nat.alloc.out).take (firstInitError lib nat + 1), ?_, ?_⟩,
    ?_, ?_⟩ <;>
  simp [initDriver, initDriverFail, halloc, hv, hp, hm, releaseHandle, NewError, World.log,
    World.setH, World.updateHandleCount, AnyHandle.raw, AnyHandle.handleType, newEvents,
    hnull, hfree, h1, h0, specInitSteps, firstInitError, initStepErrors,
    Event.isNative, List.indexOf, List.findIdx, List.findIdx.go]

theorem initDriver_attr_failure_witness :
    Lib.odbc.IsError (0 : Int) = false ∧ Lib.odbc.IsError (-1 : Int) = true ∧
    (initDriver Lib.odbc ⟨⟨0, 1⟩, 0, -1, 0, 0⟩ World.initial).2.drv.EnvCount
      = (if (1 : SQLHANDLE) ≠ SQL_NULL_HANDLE ∧ Lib.odbc.IsError (0 : Int) = false
          then 0 else 1) :=
  ⟨by decide, by decide,
    (initDriver_attr_failure Lib.odbc ⟨⟨0, 1⟩, 0, -1, 0, 0⟩ World.initial (by decide)
      (by decide)).2.2.2⟩

/-- C7: the native calls of `initDriver` are an initial segment of the fixed
sequence (1) `SQLAllocHandle` of an environment handle from the null parent,
(2) `SQL_ATTR_ODBC_VERSION := SQL_OV_ODBC3`, (3) `SQL_ATTR_CONNECTION_POOLING :=
SQL_CP_ONE_PER_HENV`, (4) `SQL_ATTR_CP_MATCH := SQL_CP_RELAXED_MATCH`, cut right
after the first step that reports an error; in that case the result is the
non-nil error that names that step's operation.  The result is nil exactly when
all four steps succeed, and then `drv.h` is the allocated handle and the
counters are `EnvCount = 1`, `ConnCount = 0`, `StmtCount = 0`. -/
theorem initDriver_steps (lib : Lib) (nat : InitNative) (w : World) :
    (newEvents w (initDriver lib nat w).2).filter Event.isNative
      = (specInitSteps nat.alloc.out).take (firstInitError lib nat + 1) ∧
    (firstInitError lib nat < 4 →
      (initDriver lib nat w).1 = some (specInitError nat (firstInitError lib nat))) ∧
    ((initDriver lib nat w).1 = none ↔
      (lib.IsError nat.alloc.ret = false ∧ lib.IsError nat.setVersion = false ∧
        lib.IsError nat.setPooling = false ∧ lib.IsError nat.setMatch = false)) ∧
    ((initDriver lib nat w).1 = none ↔ firstInitError lib nat = 4) ∧
    ((initDriver lib nat w).1 = none →
      (initDriver lib nat w).2.drv.h = nat.alloc.out ∧
      (initDriver lib nat w).2.drv.EnvCount = 1 ∧
      (initDriver lib nat w).2.drv.ConnCount = 0 ∧
      (initDriver lib nat w).2.drv.StmtCount = 0) := by
  have h1 : wrap32 1 = 1 := by decide
  by_cases hnull : nat.alloc.out = SQL_NULL_HANDLE <;>
  cases hfree : lib.IsError nat.free <;>
  cases ha : lib.IsError nat.alloc.ret <;>
  cases hv : lib.IsError nat.setVersion <;>
  cases hp : lib.IsError nat.setPooling <;>
  cases hm : lib.IsError nat.setMatch <;>
  simp [initDriver, initDriverFail, ha, hv, hp, hm, releaseHandle, NewError, World.log,
    World.setH, World.updateHandleCount, AnyHandle.raw, AnyHandle.handleType, newEvents,
    hnull, hfree, h1, specInitSteps, specInitError, firstInitError, initStepErrors,
    Event.isNative, List.indexOf, List.findIdx, List.findIdx.go]

/-! ## `Close` after an initialisation that failed -/

/-- Whatever the state, `Close` leaves the null handle in `drv.h`. -/
theorem Close_clears_h (lib : Lib) (free : SQLRETURN) (w : World) :
    (Driver.Close lib free w).2.drv.h = SQL_NULL_HANDLE := by
  simp only [Driver.Close, releaseHandle, NewError, World.log, World.setH,
    World.updateHandleCount, AnyHandle.raw, AnyHandle.handleType, SQL_NULL_HENV]
  split_ifs <;> rfl

/-- After an allocation failure `drv.h` is still the null handle of the initial
state, and `Close` then returns nil and leaves `drv.h` null, whatever the native
library would answer. -/
theorem Close_after_alloc_failure (lib : Lib) (nat : InitNative) (free : SQLRETURN)
    (halloc : lib.IsError nat.alloc.ret = true) :
    (Driver.Close lib free (initDriver lib nat World.initial).2).1 = none ∧
    (Driver.Close lib free (initDriver lib nat World.initial).2).2.drv.h = SQL_NULL_HANDLE := by
  simp [Driver.Close, initDriver, halloc, releaseHandle, NewError, World.log, World.setH,
    World.initial, AnyHandle.raw, SQL_NULL_HANDLE, SQL_NULL_HENV]

/-- After a successful initialisation the first `Close` releases the
environment handle and clears `drv.h`; a second `Close` finds the null handle
and releases nothing: the handle is released once. -/
theorem Close_twice_after_success (lib : Lib) (nat : InitNative) (free₁ free₂ : SQLRETURN)
    (hok : (initDriver lib nat World.initial).1 = none)
    (hnull : nat.alloc.out ≠ SQL_NULL_HANDLE) :
    (Driver.Close lib free₂
        (Driver.Close lib free₁ (initDriver lib nat World.initial).2).2).1 = none ∧
    ((Driver.Close lib free₂
        (Driver.Close lib free₁ (initDriver lib nat World.initial).2).2).2.trace.count
      (.releaseHandle (.SQLHENV nat.alloc.out))) = 1 := by
  have h1 : wrap32 1 = 1 := by decide
  revert hok
  cases hfree : lib.IsError free₁ <;>
  cases ha : lib.IsError nat.alloc.ret <;>
  cases hv : lib.IsError nat.setVersion <;>
  cases hp : lib.IsError nat.setPooling <;>
  cases hm : lib.IsError nat.setMatch <;>
  simp [Driver.Close, initDriver, initDriverFail, ha, hv, hp, hm, releaseHandle, NewError,
    World.log, World.setH, World.updateHandleCount, World.initial, AnyHandle.raw,
    AnyHandle.handleType, hfree, h1, hnull, SQL_NULL_HENV, SQL_NULL_HANDLE,
    List.count_cons, List.count_nil] <;>
  simp_all [SQL_NULL_HANDLE]

/-- After an initialisation whose allocation succeeded and one of whose
attribute steps failed, `drv.h` still stores the handle that the failure branch
released, and `Close` passes it to `releaseHandle` a second time. -/
theorem Close_after_attr_failure_releases_again (lib : Lib) (nat : InitNative)
    (free₂ : SQLRETURN) (halloc : lib.IsError nat.alloc.ret = false)
    (hattr : lib.IsError nat.setVersion = true ∨ lib.IsError nat.setPooling = true ∨
      lib.IsError nat.setMatch = true) :
    (initDriver lib nat World.initial).2.drv.h = nat.alloc.out ∧
    ((initDriver lib nat World.initial).2.trace.count
      (.releaseHandle (.SQLHENV nat.alloc.out))) = 1 ∧
    ((Driver.Close lib free₂ (initDriver lib nat World.initial).2).2.trace.count
      (.releaseHandle (.SQLHENV nat.alloc.out))) = 2 := by
  by_cases hnull : nat.alloc.out = SQL_NULL_HANDLE <;>
  cases hfree : lib.IsError nat.free <;>
  cases hfree₂ : lib.IsError free₂ <;>
  cases hv : lib.IsError nat.setVersion <;>
  cases hp : lib.IsError nat.setPooling <;>
  cases hm : lib.IsError nat.setMatch <;>
  simp [hv, hp, hm] at hattr <;>
  simp [Driver.Close, initDriver, initDriverFail, halloc, hv, hp, hm, releaseHandle, NewError,
    World.log, World.setH, World.updateHandleCount, World.initial, AnyHandle.raw,
    AnyHandle.handleType, hfree, hfree₂, hnull, SQL_NULL_HENV,
    List.count_cons, List.count_nil]

/-- After a failed `init` every `open` on the package driver fails fast with the
remembered error and changes nothing. -/
theorem open_after_failed_init (lib : Lib) (nat : InitNative) (name : List Char)
    (ctx : Context) (natOpen : OpenNative) (e : Error)
    (herr : (initDriver lib nat World.initial).1 = some e) :
    Driver.open lib (init lib nat World.initial).drv name ctx natOpen (init lib nat World.initial)
      = ((none, some e), init lib nat World.initial) := by
  have hi : (init lib nat World.initial).drv.initErr = some e := by
    simp [init, herr, World.log]
  simp [Driver.open, hi]

/-- C8, at the failing input: the allocation yields handle 1, the ODBC-version
step reports `SQL_ERROR` and the release inside `initDriver` succeeds.  The
driver state then still stores handle 1, so `Close` passes the handle that was
already released to `releaseHandle` again; when the native library answers
`SQL_INVALID_HANDLE` (-2) to that, `Close` returns a non-nil error. -/
theorem Close_after_attr_failure_fails :
    (initDriver Lib.odbc ⟨⟨0, 1⟩, -1, 0, 0, 0⟩ World.initial).1
      = some ⟨"SQLSetEnvUIntPtrAttr", .SQLHENV 1⟩ ∧
    (initDriver Lib.odbc ⟨⟨0, 1⟩, -1, 0, 0, 0⟩ World.initial).2.drv.h = 1 ∧
    (initDriver Lib.odbc ⟨⟨0, 1⟩, -1, 0, 0, 0⟩ World.initial).2.trace
      = [.SQLAllocHandle .SQL_HANDLE_ENV 0,
         .SQLSetEnvUIntPtrAttr 1 .SQL_ATTR_ODBC_VERSION .SQL_OV_ODBC3 .zero,
         .NewError "SQLSetEnvUIntPtrAttr" (.SQLHENV 1),
         .releaseHandle (.SQLHENV 1)] ∧
    (Driver.Close Lib.odbc (-2)
        (initDriver Lib.odbc ⟨⟨0, 1⟩, -1, 0, 0, 0⟩ World.initial).2).1
      = some ⟨"SQLFreeHandle", .SQLHENV 1⟩ ∧
    (Driver.Close Lib.odbc (-2)
        (initDriver Lib.odbc ⟨⟨0, 1⟩, -1, 0, 0, 0⟩ World.initial).2).2.drv.h
      = SQL_NULL_HANDLE := by
  decide

/-- C9, at the failing input: the allocation yields handle 1, the ODBC-version
step reports `SQL_ERROR`, the release inside `initDriver` succeeds, and `Close`
is called once afterwards.  Handle 1 is passed to `releaseHandle` twice over the
run, whatever the native library answers to the second release; when it answers
`SQL_SUCCESS`, `EnvCount` ends at -1. -/
theorem env_handle_released_twice :
    (initDriver Lib.odbc ⟨⟨0, 1⟩, -1, 0, 0, 0⟩ World.initial).2.trace.count
        (.releaseHandle (.SQLHENV 1)) = 1 ∧
    (initDriver Lib.odbc ⟨⟨0, 1⟩, -1, 0, 0, 0⟩ World.initial).2.drv.EnvCount = 0 ∧
    (Driver.Close Lib.odbc 0
        (initDriver Lib.odbc ⟨⟨0, 1⟩, -1, 0, 0, 0⟩ World.initial).2).2.trace.count
        (.releaseHandle (.SQLHENV 1)) = 2 ∧
    (Driver.Close Lib.odbc (-2)
        (initDriver Lib.odbc ⟨⟨0, 1⟩, -1, 0, 0, 0⟩ World.initial).2).2.trace.count
        (.releaseHandle (.SQLHENV 1)) = 2 ∧
    (Driver.Close Lib.odbc 0
        (initDriver Lib.odbc ⟨⟨0, 1⟩, -1, 0, 0, 0⟩ World.initial).2).2.drv.EnvCount = -1 := by
  decide

/-! ## Sequences of `open` calls -/

theorem count_after_one_open (lib : Lib) (c : OpenCall) (w : World) :
    (Driver.open lib c.d c.name c.ctx c.nat w).2.drv.ConnCount
      = if c.allocated lib = true then wrap32 (w.drv.ConnCount + 1) else w.drv.ConnCount := by
  cases hi : c.d.initErr with
  | some e => simp [Driver.open, hi, OpenCall.allocated]
  | none =>
    by_cases hnull : c.nat.alloc.out = SQL_NULL_HANDLE <;>
    cases ha : lib.IsError c.nat.alloc.ret <;>
    cases hc : lib.IsError c.nat.connect <;>
    cases hf : lib.IsError c.nat.free <;>
    simp [Driver.open, hi, ha, hc, hf, hnull, OpenCall.allocated,
      releaseHandle, NewError, World.log, World.updateHandleCount, AnyHandle.raw]

theorem openSeq_count_general (lib : Lib) (calls : List OpenCall) :
    ∀ w : World, InRange32 w.drv.ConnCount →
      (openSeq lib calls w).drv.ConnCount
        = wrap32 (w.drv.ConnCount + (calls.countP (OpenCall.allocated lib) : Int)) := by
  induction calls with
  | nil =>
    intro w hr
    simp [openSeq, wrap32_of_inRange hr]
  | cons c cs ih =>
    intro w hr
    have hstep := count_after_one_open lib c w
    simp only [openSeq, List.countP_cons, Nat.cast_add]
    by_cases hc : c.allocated lib = true
    · rw [if_pos hc] at hstep
      rw [ih _ (by rw [hstep]; exact inRange32_wrap32 _), hstep]
      simp only [hc, if_true, Nat.cast_one]
      rw [wrap32_wrap32_add]
      congr 1
      omega
    · rw [if_neg hc] at hstep
      rw [ih _ (by rw [hstep]; exact hr), hstep]
      simp [hc]

/-- C3, as stated, fails: `2^31` calls of `open` from `ConnCount = 0`, each with
a successful allocation and a successful connect, leave `ConnCount` at `-2^31`,
not at the number `2^31` of successful allocations: the counter is an
`atomic.Int32`. -/
theorem openSeq_count_counterexample :
    World.initial.drv.ConnCount = 0 ∧
    ((List.replicate 2147483648 okCall).countP (OpenCall.allocated Lib.odbc)) = 2147483648 ∧
    (openSeq Lib.odbc (List.replicate 2147483648 okCall) World.initial).drv.ConnCount
      = -2147483648 := by
  have hok : OpenCall.allocated Lib.odbc okCall = true := by decide
  have hcnt : (List.replicate 2147483648 okCall).countP (OpenCall.allocated Lib.odbc)
      = 2147483648 := by
    rw [List.countP_replicate, if_pos hok]
  refine ⟨rfl, hcnt, ?_⟩
  rw [openSeq_count_general Lib.odbc _ World.initial (by decide), hcnt]
  decide

/-- C3, amended: for every finite sequence of `open` calls started from
`ConnCount = 0` in which fewer than `2^31` allocations succeed, with arbitrary
receivers and arbitrary outcomes of the native allocation, connect and release
calls, `ConnCount` after the sequence equals the number of calls in which
`SQLAllocHandle` for the connection handle succeeded, counting the calls whose
subsequent `SQLDriverConnect` failed; calls that return the remembered init
error or fail at allocation contribute nothing. -/
theorem openSeq_ConnCount (lib : Lib) (calls : List OpenCall) (w : World)
    (hstart : w.drv.ConnCount = 0)
    (hbound : calls.countP (OpenCall.allocated lib) < 2147483648) :
    (openSeq lib calls w).drv.ConnCount = (calls.countP (OpenCall.allocated lib) : Int) := by
  rw [openSeq_count_general lib calls w (by rw [hstart]; decide), hstart, zero_add]
  apply wrap32_of_inRange
  unfold InRange32
  omega

theorem openSeq_ConnCount_witness :
    World.initial.drv.ConnCount = 0 ∧
    ([⟨World.initial.drv, "DSN=a".toList, Context.Background, ⟨⟨0, 2⟩, 0, 0⟩⟩,
      ⟨World.initial.drv, "DSN=b".toList, Context.Background, ⟨⟨0, 3⟩, -1, 0⟩⟩,
      ⟨World.initial.drv, "DSN=c".toList, Context.Background, ⟨⟨-1, 0⟩, 0, 0⟩⟩,
      ⟨World.initial.drv, "DSN=d".toList, Context.Background, ⟨⟨0, 4⟩, -1, -1⟩⟩] :
        List OpenCall).countP (OpenCall.allocated Lib.odbc) = 3 ∧
    (openSeq Lib.odbc
      [⟨World.initial.drv, "DSN=a".toList, Context.Background, ⟨⟨0, 2⟩, 0, 0⟩⟩,
       ⟨World.initial.drv, "DSN=b".toList, Context.Background, ⟨⟨0, 3⟩, -1, 0⟩⟩,
       ⟨World.initial.drv, "DSN=c".toList, Context.Background, ⟨⟨-1, 0⟩, 0, 0⟩⟩,
       ⟨World.initial.drv, "DSN=d".toList, Context.Background, ⟨⟨0, 4⟩, -1, -1⟩⟩]
      World.initial).drv.ConnCount
      = (([⟨World.initial.drv, "DSN=a".toList, Context.Background, ⟨⟨0, 2⟩, 0, 0⟩⟩,
           ⟨World.initial.drv, "DSN=b".toList, Context.Background, ⟨⟨0, 3⟩, -1, 0⟩⟩,
           ⟨World.initial.drv, "DSN=c".toList, Context.Background, ⟨⟨-1, 0⟩, 0, 0⟩⟩,
           ⟨World.initial.drv, "DSN=d".toList, Context.Background, ⟨⟨0, 4⟩, -1, -1⟩⟩] :
            List OpenCall).countP (OpenCall.allocated Lib.odbc) : Int) :=
  ⟨by decide, by decide, openSeq_ConnCount Lib.odbc _ World.initial (by decide) (by decide)⟩

/-! ## The dialect test -/

theorem Replace_all_empty (old : Char) (s : List Char) :
    ∀ n : Int, n < 0 → Replace s old [] n = s.filter (fun c => c != old) := by
  induction s with
  | nil => intro n _; simp [Replace]
  | cons c s ih =>
    intro n hn
    have hn0 : n ≠ 0 := by omega
    by_cases hc : c = old
    · simp [Replace, hc, hn0, ih (n - 1) (by omega)]
    · simp [Replace, hc, ih n hn]

theorem Contains_iff_occurs (s substr : List Char) :
    Contains s substr = true ↔ substr <:+: s := by
  induction s with
  | nil => simp [Contains, List.infix_nil]
  | cons c s ih =>
    simp only [Contains, Bool.or_eq_true, List.isPrefixOf_iff_prefix, ih, List.infix_cons_iff]

theorem map_filter_eq_append {f : Char → Char} {p : Char → Bool} {l a b : List Char}
    (h : (l.filter p).map f = a ++ b) :
    ∃ l₁ l₂, l = l₁ ++ l₂ ∧ (l₁.filter p).map f = a ∧ (l₂.filter p).map f = b := by
  obtain ⟨m₁, m₂, hm, h₁, h₂⟩ := List.map_eq_append_iff.mp h
  obtain ⟨l₁, l₂, hl, g₁, g₂⟩ := List.filter_eq_append_iff.mp hm
  exact ⟨l₁, l₂, hl, by rw [g₁, h₁], by rw [g₂, h₂]⟩

theorem Writes_iff (lib : Lib) (m t : List Char) :
    Writes lib m t ↔ stripSpacesUpper lib m = t := by
  constructor
  · intro h
    induction h with
    | nil => rfl
    | space m t _ ih => simpa [stripSpacesUpper] using ih
    | rune c b m t hc hb _ ih =>
      simp only [stripSpacesUpper] at ih ⊢
      simp [hc, hb, ih]
  · intro h
    induction m generalizing t with
    | nil =>
      simp [stripSpacesUpper] at h
      subst h
      exact Writes.nil
    | cons c m ih =>
      by_cases hc : c = ' '
      · subst hc
        refine Writes.space m t (ih t ?_)
        simpa [stripSpacesUpper] using h
      · simp only [stripSpacesUpper] at h ih
        simp [hc] at h
        subst h
        exact Writes.rune c _ m _ hc rfl (ih _ rfl)

theorem dialect_test_eq (lib : Lib) (name : List Char) :
    ToUpper lib (Replace name ' ' [] (-1)) = stripSpacesUpper lib name := by
  rw [Replace_all_empty ' ' name (-1) (by decide)]
  rfl

theorem dialect_test_iff (lib : Lib) (name : List Char) :
    Contains (ToUpper lib (Replace name ' ' [] (-1))) accessDriverSubstr = true
      ↔ HasMarker lib name := by
  rw [Contains_iff_occurs, dialect_test_eq]
  constructor
  · rintro ⟨a, b, hab⟩
    obtain ⟨l₁, post, hl, h₁, _⟩ := map_filter_eq_append (l := name) hab.symm
    obtain ⟨pre, m, hl', _, hm⟩ := map_filter_eq_append (l := l₁) h₁
    exact ⟨pre, m, post, by rw [hl, hl'], (Writes_iff lib m _).mpr hm⟩
  · rintro ⟨pre, m, post, hname, hm⟩
    refine ⟨stripSpacesUpper lib pre, stripSpacesUpper lib post, ?_⟩
    rw [hname, ← (Writes_iff lib m _).mp hm]
    simp [stripSpacesUpper]

theorem flag_of_successful_open (lib : Lib) (d : Driver) (name : List Char) (ctx : Context)
    (nat : OpenNative) (w w' : World) (c : Conn)
    (hopen : Driver.open lib d name ctx nat w = ((some c, none), w')) :
    c.isMSAccessDriver = Contains (ToUpper lib (Replace name ' ' [] (-1))) accessDriverSubstr := by
  unfold Driver.open at hopen
  cases hi : d.initErr with
  | some e => simp [hi] at hopen
  | none =>
    cases ha : lib.IsError nat.alloc.ret <;> cases hc : lib.IsError nat.connect <;>
      simp [hi, ha, hc] at hopen
    rw [← hopen.1]

theorem ToUpper_ascii (lib : Lib) (s : List Char) (h : ∀ c ∈ s, c.val < 128) :
    ToUpper lib s = s.map Char.toUpper := by
  unfold ToUpper
  apply List.map_congr_left
  intro c hc
  simp [upperRune, h c hc]

theorem accessExample_hasMarker : HasMarker Lib.odbc accessExample :=
  (dialect_test_iff Lib.odbc accessExample).mp (by decide)

theorem lowerExample_hasMarker : HasMarker Lib.odbc lowerExample :=
  (dialect_test_iff Lib.odbc lowerExample).mp (by decide)

theorem postgresExample_not_hasMarker : ¬ HasMarker Lib.odbc postgresExample := by
  intro h
  have := (dialect_test_iff Lib.odbc postgresExample).mpr h
  revert this
  decide

/-- C4: on a successful `open` the connection's `isMSAccessDriver` flag is true
if the connection string contains the marker `accessDriverSubstr` written in any
letter casing and with any spaces embedded in it, and false if it does not; it
is true for the Microsoft Access example of the specification and false for its
PostgreSQL example. -/
theorem open_dialect_flag (lib : Lib) (d : Driver) (name : List Char) (ctx : Context)
    (nat : OpenNative) (w w' : World) (c : Conn)
    (hopen : Driver.open lib d name ctx nat w = ((some c, none), w')) :
    (HasMarker lib name → c.isMSAccessDriver = true) ∧
    (¬ HasMarker lib name → c.isMSAccessDriver = false) ∧
    (name = accessExample → c.isMSAccessDriver = true) ∧
    (name = postgresExample → c.isMSAccessDriver = false) := by
  have hflag := flag_of_successful_open lib d name ctx nat w w' c hopen
  refine ⟨?_, ?_, ?_, ?_⟩
  · intro h
    rw [hflag]
    exact (dialect_test_iff lib name).mpr h
  · intro h
    rw [hflag]
    cases hb : Contains (ToUpper lib (Replace name ' ' [] (-1))) accessDriverSubstr
    · rfl
    · exact absurd ((dialect_test_iff lib name).mp hb) h
  · intro hname
    rw [hflag, hname, ToUpper_ascii lib _ (by decide)]
    decide
  · intro hname
    rw [hflag, hname, ToUpper_ascii lib _ (by decide)]
    decide

theorem open_dialect_flag_witness :
    (Driver.open Lib.odbc World.initial.drv lowerExample Context.Background
        ⟨⟨0, 2⟩, 0, 0⟩ World.initial).1 = (some ⟨2, true, false, false⟩, none) ∧
    HasMarker Lib.odbc lowerExample ∧
    (⟨2, true, false, false⟩ : Conn).isMSAccessDriver = true :=
  ⟨by decide, lowerExample_hasMarker,
    (open_dialect_flag Lib.odbc World.initial.drv lowerExample Context.Background
      ⟨⟨0, 2⟩, 0, 0⟩ World.initial
      (Driver.open Lib.odbc World.initial.drv lowerExample Context.Background
        ⟨⟨0, 2⟩, 0, 0⟩ World.initial).2
      ⟨2, true, false, false⟩ (by decide)).1 lowerExample_hasMarker⟩

/-- C5, as stated, fails: the connection strings `tabExample` and `spaceExample`
become equal once all whitespace is removed and letter case is folded, `open`
succeeds on both, and the first connection has the flag false while the second
has it true: a tab is not stripped by the dialect test. -/
theorem open_dialect_whitespace_counterexample :
    specNormalize Lib.odbc tabExample = specNormalize Lib.odbc spaceExample ∧
    (Driver.open Lib.odbc World.initial.drv tabExample Context.Background
        ⟨⟨0, 2⟩, 0, 0⟩ World.initial).1 = (some ⟨2, false, false, false⟩, none) ∧
    (Driver.open Lib.odbc World.initial.drv spaceExample Context.Background
        ⟨⟨0, 2⟩, 0, 0⟩ World.initial).1 = (some ⟨2, true, false, false⟩, none) := by
  decide

/-- C5, amended: the dialect test of `open` is made on the connection string
with its space characters (U+0020) stripped and its letters upper-cased: two
connection strings that become equal once all spaces are removed and letters
are upper-cased, and on which `open` succeeds, give connections with the same
`isMSAccessDriver` flag. -/
theorem open_dialect_normal_form (lib : Lib) (d₁ d₂ : Driver) (name₁ name₂ : List Char)
    (ctx₁ ctx₂ : Context) (nat₁ nat₂ : OpenNative) (w₁ w₂ w₁' w₂' : World) (c₁ c₂ : Conn)
    (hnorm : stripSpacesUpper lib name₁ = stripSpacesUpper lib name₂)
    (h₁ : Driver.open lib d₁ name₁ ctx₁ nat₁ w₁ = ((some c₁, none), w₁'))
    (h₂ : Driver.open lib d₂ name₂ ctx₂ nat₂ w₂ = ((some c₂, none), w₂')) :
    c₁.isMSAccessDriver = c₂.isMSAccessDriver := by
  rw [flag_of_successful_open lib d₁ name₁ ctx₁ nat₁ w₁ w₁' c₁ h₁,
    flag_of_successful_open lib d₂ name₂ ctx₂ nat₂ w₂ w₂' c₂ h₂,
    dialect_test_eq, dialect_test_eq, hnorm]

theorem open_dialect_normal_form_witness :
    stripSpacesUpper Lib.odbc lowerExample = stripSpacesUpper Lib.odbc spaceExample ∧
    (Driver.open Lib.odbc World.initial.drv lowerExample Context.Background
        ⟨⟨0, 2⟩, 0, 0⟩ World.initial).1 = (some ⟨2, true, false, false⟩, none) ∧
    (Driver.open Lib.odbc World.initial.drv spaceExample Context.Background
        ⟨⟨0, 3⟩, 0, 0⟩ World.initial).1 = (some ⟨3, true, false, false⟩, none) ∧
    (⟨2, true, false, false⟩ : Conn).isMSAccessDriver
      = (⟨3, true, false, false⟩ : Conn).isMSAccessDriver :=
  ⟨by decide, by decide, by decide,
    open_dialect_normal_form Lib.odbc World.initial.drv World.initial.drv
      lowerExample spaceExample Context.Background Context.Background
      ⟨⟨0, 2⟩, 0, 0⟩ ⟨⟨0, 3⟩, 0, 0⟩ World.initial World.initial
      (Driver.open Lib.odbc World.initial.drv lowerExample Context.Background
        ⟨⟨0, 2⟩, 0, 0⟩ World.initial).2
      (Driver.open Lib.odbc World.initial.drv spaceExample Context.Background
        ⟨⟨0, 3⟩, 0, 0⟩ World.initial).2
      ⟨2, true, false, false⟩ ⟨3, true, false, false⟩ (by decide) (by decide) (by decide)⟩

end odbc
